import Mathlib

/-!
Shallow embedding of `scripts/check-minimax-balance.js` (the MiniMax balance
checker) and verification of its specification claims.

The script is modelled as pure Lean functions over explicit "world" records:
the credential sources, the browser session outcome flags, the loaded page
(DOM elements, body text, resource-timing entries, and the outcome of an
authenticated re-fetch of a URL), the prior log content, and the outcome of
the three git publishing steps.  JS strings are modelled as Lean `String`
(character based); JS `split` / `includes` / `trim` / regular-expression
tests are re-implemented below on `List Char` with JS semantics.
-/

namespace MinimaxBalance

/-- Model of JS `String.prototype.startsWith`-style prefix test on char lists. -/
def prefixOfL : List Char → List Char → Bool
  | [], _ => true
  | _ :: _, [] => false
  | p :: ps, c :: cs => p == c && prefixOfL ps cs

/-- Model of JS `String.prototype.includes`: does `pat` occur inside `s`. -/
def infixOfL (pat : List Char) : List Char → Bool
  | [] => pat.isEmpty
  | c :: cs => prefixOfL pat (c :: cs) || infixOfL pat cs

/-- Model of JS `s.includes(pat)` on Lean strings. -/
def containsStr (s pat : String) : Bool :=
  infixOfL pat.data s.data

/-- Model of the JS regular-expression test `/\d+\.\d{2}/.test(text)`:
the text contains a digit, a dot, and two digits in a row. -/
def hasAmtPat : List Char → Bool
  | [] => false
  | c :: rest =>
    (match rest with
     | p :: a :: b :: _ => c.isDigit && p == '.' && a.isDigit && b.isDigit
     | _ => false) || hasAmtPat rest

/-- Model of JS `String.prototype.split` with a one-character separator:
always returns at least one (possibly empty) group. -/
def splitOnCh (sep : Char) : List Char → List (List Char)
  | [] => [[]]
  | c :: cs =>
    if c == sep then [] :: splitOnCh sep cs
    else
      match splitOnCh sep cs with
      | [] => [[c]]
      | g :: gs => (c :: g) :: gs

/-- Model of JS `Array.prototype.join` with a one-character separator. -/
def joinWith (sep : Char) : List (List Char) → List Char
  | [] => []
  | [g] => g
  | g :: gs => g ++ sep :: joinWith sep gs

/-- JS whitespace test used by `String.prototype.trim`. -/
def isJsWs (c : Char) : Bool :=
  c == ' ' || c == '\t' || c == '\n' || c == '\r'

/-- Model of JS `String.prototype.trim` on char lists. -/
def trimL (l : List Char) : List Char :=
  ((l.dropWhile isJsWs).reverse.dropWhile isJsWs).reverse

/-- Model of JS `content.substring(0, n)`: the prefix of at most `n` characters. -/
def takeStr (n : Nat) (s : String) : String :=
  ⟨s.data.take n⟩

/-- Model of JS `Array.prototype.slice(-n)`: the last `n` elements. -/
def lastN (n : Nat) (l : List α) : List α :=
  l.drop (l.length - n)

/-! ### Session provider (`getCookie`, lines 12-21) -/

/-- State of the local credential file `minimax-cookie.json`: when it exists it
is either JSON-parseable (with an optional `cookie` field, `none` modelling an
absent field, i.e. JS `undefined`) or unparseable (so `JSON.parse` throws). -/
inductive CookieFile
  | parseable (cookie : Option String)
  | unparseable
deriving DecidableEq, Repr

/-- Credential configuration of a run: the optional credential file and the
optional `MINIMAX_COOKIE` environment variable (`none` = unset). -/
structure Env where
  cookieFile : Option CookieFile
  envCookie : Option String
deriving DecidableEq, Repr

/-- The JS exceptions the script can raise, plus `fetchCandidate` for an error
thrown while re-fetching one intercepted candidate URL (the spec's
`FetchCandidateError`), so that we can state that it is never surfaced. -/
inductive JsError
  | missingCookie (msg : String)
  | parseError
  | launchError
  | navError
  | selectorError
  | persistError
  | fetchCandidate (msg : String)
deriving DecidableEq, Repr

/-- The exact message of the missing-credential error thrown at line 31. -/
def missingCookieMsg : String :=
  "未找到 MiniMax cookie，请在 minimax-cookie.json 中配置"

/-- Model of `getCookie` (lines 12-21): if the credential file exists, parse it
and return its `cookie` field (a parse failure throws and is NOT caught);
otherwise return `process.env.MINIMAX_COOKIE || ''`.  The `Option String`
result models a JS value that may be `undefined` (absent `cookie` field). -/
def getCookie (env : Env) : Except JsError (Option String) :=
  match env.cookieFile with
  | some (CookieFile.parseable c) => Except.ok c
  | some CookieFile.unparseable => Except.error JsError.parseError
  | none => Except.ok (some (env.envCookie.getD ""))

/-- JS falsiness of the cookie value at line 30: `undefined` or `''`. -/
def jsFalsy : Option String → Bool
  | none => true
  | some s => s.isEmpty

/-! ### Cookie injection (lines 50-54) -/

/-- One browser cookie entry handed to `page.setCookie`. -/
structure BrowserCookie where
  name : List Char
  value : List Char
  domain : String
deriving DecidableEq, Repr

/-- Model of the per-pair arrow function at lines 51-52:
`const [name, ...value] = c.trim().split('='); return { name, value: value.join('='), domain: '.minimaxi.com' }`. -/
def parseCookiePair (c : List Char) : BrowserCookie :=
  let parts := splitOnCh '=' (trimL c)
  { name := parts.headD [], value := joinWith '=' parts.tail, domain := ".minimaxi.com" }

/-- Model of the cookie-injection mapping at line 50: split the raw cookie
string on `;` and parse each pair. -/
def parseCookies (cookie : String) : List BrowserCookie :=
  (splitOnCh ';' cookie.data).map parseCookiePair

/-! ### Page model and the extraction chain (lines 63-116) -/

/-- One DOM element of the loaded page, as seen by the selector scan. -/
structure DomElement where
  className : String
  tag : String
  innerText : String
deriving DecidableEq, Repr

/-- The selectors of lines 65-72: either a `[class*="s"]` substring selector or
a plain tag selector (`span`, `div`). -/
inductive Selector
  | classContains (s : String)
  | tagIs (s : String)
deriving DecidableEq, Repr

/-- The prioritized selector list of lines 65-72. -/
def selectorList : List Selector :=
  [Selector.classContains "balance", Selector.classContains "credit",
   Selector.classContains "amount", Selector.classContains "quota",
   Selector.tagIs "span", Selector.tagIs "div"]

/-- Whether a DOM element matches one selector. -/
def selMatches (sel : Selector) (e : DomElement) : Bool :=
  match sel with
  | Selector.classContains s => containsStr e.className s
  | Selector.tagIs t => e.tag == t

/-- The acceptance test of line 78: nonempty rendered text containing a
currency glyph or a two-decimal amount pattern. -/
def balanceLike (text : String) : Bool :=
  !text.isEmpty && (containsStr text "¥" || containsStr text "元" || hasAmtPat text.data)

/-- One resource-timing entry (`performance.getEntriesByType('resource')`). -/
structure Resource where
  name : String
  initiatorType : String
deriving DecidableEq, Repr

/-- One entry of the `apiCalls` array built at lines 91-96. -/
structure ApiCall where
  name : String
  initiatorType : String
deriving DecidableEq, Repr

/-- The loaded page: its DOM elements, its `document.body.innerText`, its
resource-timing entries, and the outcome of an in-session `fetch(url)` plus
`res.json()` of a URL (`Except.error` models a thrown error, `Except.ok body`
the parsed response body). -/
structure PageModel where
  elements : List DomElement
  bodyText : String
  resources : List Resource
  fetchJson : String → Except String String

/-- Model of the DOM heuristic scan at lines 74-82: for each selector in
priority order, for each matching element in document order, when the rendered
text passes the acceptance test the scan emits the console line
`Found: <text>`.  The scan only logs; it contributes nothing to the returned
value (the first `page.evaluate` returns `document.body.innerText`, line 85). -/
def domFoundLogs (p : PageModel) : List String :=
  (selectorList.map (fun sel =>
    (p.elements.filter (selMatches sel)).filterMap (fun e =>
      if balanceLike e.innerText then some ("Found: " ++ e.innerText) else none))).flatten

/-- Model of lines 91-96: keep the resource entries whose initiator is `fetch`
or `xhr`, project them to `{name, type}`, and take the last 10. -/
def apiCallsOf (p : PageModel) : List ApiCall :=
  lastN 10 ((p.resources.filter
      (fun r => r.initiatorType == "fetch" || r.initiatorType == "xhr")).map
    (fun r => { name := r.name, initiatorType := r.initiatorType }))

/-- The URL filter of line 102: the candidate URL contains `balance`, `credit`
or `quota`. -/
def isBalanceCall (name : String) : Bool :=
  containsStr name "balance" || containsStr name "credit" || containsStr name "quota"

/-- The value `fetchBalance` resolves with: either the parsed JSON body of a
re-fetched candidate API call (line 109) or the degraded object
`{ status: 'page_loaded', content_preview: content.substring(0, 500) }`
(line 116). -/
inductive FetchResult
  | apiResponse (body : String)
  | pagePreview (preview : String)
deriving DecidableEq, Repr

/-- The `status` tag carried by the returned object: the degraded object is
tagged `page_loaded`; the API-response object carries no status tag of its own. -/
def statusTag : FetchResult → Option String
  | FetchResult.apiResponse _ => none
  | FetchResult.pagePreview _ => some "page_loaded"

/-- Whether the result is the re-fetched API response variant. -/
def isApiResponse : FetchResult → Bool
  | FetchResult.apiResponse _ => true
  | FetchResult.pagePreview _ => false

/-- Whether the result is the degraded page-preview variant. -/
def isPagePreview : FetchResult → Bool
  | FetchResult.apiResponse _ => false
  | FetchResult.pagePreview _ => true

/-- Model of the candidate loop at lines 101-114: scan the calls in order; for
a candidate whose URL passes the filter, attempt the authenticated re-fetch;
on success return its body, on a thrown error (the `catch` at line 110) fall
through to the next candidate. -/
def runCandidates : List ApiCall → (String → Except String String) → Option String
  | [], _ => none
  | c :: rest, f =>
    if isBalanceCall c.name then
      match f c.name with
      | Except.ok body => some body
      | Except.error _ => runCandidates rest f
    else runCandidates rest f

/-- The URLs for which the loop actually issues a re-fetch, in order: every
filtered candidate up to and including the first successful one. -/
def fetchAttempts : List ApiCall → (String → Except String String) → List String
  | [], _ => []
  | c :: rest, f =>
    if isBalanceCall c.name then
      match f c.name with
      | Except.ok _ => [c.name]
      | Except.error _ => c.name :: fetchAttempts rest f
    else fetchAttempts rest f

/-- The extraction chain after a successful navigation (lines 100-116): first
successful candidate re-fetch wins, otherwise the 500-character preview of the
page's visible text is returned. -/
def extractAfterNav (p : PageModel) : FetchResult :=
  match runCandidates (apiCallsOf p) p.fetchJson with
  | some body => FetchResult.apiResponse body
  | none => FetchResult.pagePreview (takeStr 500 p.bodyText)

/-! ### `fetchBalance` (lines 28-121) -/

/-- Outcome flags of the browser session: whether `puppeteer.launch`,
`page.goto` and `page.waitForSelector('body')` succeed, and the loaded page. -/
structure BrowserWorld where
  launchOk : Bool
  navOk : Bool
  selectorOk : Bool
  page : PageModel

/-- Observable outcome of one `fetchBalance` call: the value or exception,
how many browser processes were launched, how many were closed, and the
cookie entries injected by `page.setCookie`. -/
structure FetchOut where
  result : Except JsError FetchResult
  launches : Nat
  closes : Nat
  cookiesSet : List BrowserCookie

/-- Model of `fetchBalance` (lines 28-121): resolve the cookie (line 29),
throw the missing-credential error on a falsy cookie (lines 30-32), launch the
browser (line 40, outside the `try`), then inside `try ... finally
browser.close()` inject cookies, navigate (a timeout throws), wait for the
body selector (a timeout throws), and run the extraction chain.  The
`finally` closes the browser on every path after a successful launch. -/
def fetchBalance (env : Env) (w : BrowserWorld) : FetchOut :=
  match getCookie env with
  | Except.error e => { result := Except.error e, launches := 0, closes := 0, cookiesSet := [] }
  | Except.ok c =>
    if jsFalsy c then
      { result := Except.error (JsError.missingCookie missingCookieMsg),
        launches := 0, closes := 0, cookiesSet := [] }
    else if !w.launchOk then
      { result := Except.error JsError.launchError, launches := 0, closes := 0, cookiesSet := [] }
    else
      let injected := parseCookies (c.getD "")
      let body : Except JsError FetchResult :=
        if !w.navOk then Except.error JsError.navError
        else if !w.selectorOk then Except.error JsError.selectorError
        else Except.ok (extractAfterNav w.page)
      { result := body, launches := 1, closes := 1, cookiesSet := injected }

/-! ### Observation recorder and sync (`saveToGitHub`, lines 123-152) -/

/-- Outcome flags for the persistence and publishing steps: whether
`fs.writeFileSync` succeeds and whether each of `git add`, `git commit`,
`git push` succeeds. -/
structure GitWorld where
  writeOk : Bool
  addOk : Bool
  commitOk : Bool
  pushOk : Bool
deriving DecidableEq, Repr

/-- The rendered record of line 126: `## <date>\n<pretty-printed body>\n\n`,
with the pretty-printed `JSON.stringify(balanceData, null, 2)` body passed in
as a string. -/
def mkRecord (date : String) (body : String) : String :=
  "## " ++ date ++ "\n" ++ body ++ "\n\n"

/-- The new file content built at line 137:
title, new record, horizontal-rule separator, then the prior content verbatim
(an absent file reads as the empty prior document, lines 131-134). -/
def saveContent (record : String) (prior : Option String) : String :=
  "# MiniMax 余额记录\n\n" ++ record ++ "\n---\n\n" ++ prior.getD ""

/-- Model of `saveToGitHub` (lines 123-152): build the new content, write it
(a write failure throws and propagates), then best-effort run the three git
steps inside `try/catch` — any step failing is caught and logged, never
thrown.  Returns the written content and whether the sync succeeded. -/
def saveToGitHub (date : String) (body : String) (prior : Option String)
    (g : GitWorld) : Except JsError (String × Bool) :=
  let newContent := saveContent (mkRecord date body) prior
  if !g.writeOk then Except.error JsError.persistError
  else Except.ok (newContent, g.addOk && g.commitOk && g.pushOk)

/-! ### `main` (lines 154-174) -/

/-- Observable outcome of one run of `main`: the process exit code, the
browser launch/close counts, the final content of the log file (`none` when no
write happened), whether the git sync succeeded, and the caught error if any. -/
structure MainOut where
  exitCode : Nat
  launches : Nat
  closes : Nat
  logContent : Option String
  syncOk : Bool
  caught : Option JsError

/-- Model of `main` (lines 154-174): run `fetchBalance`, save the observation
via `saveToGitHub`, exit 0 on completion; any thrown error is caught at line
168 and the process exits with code 1.  The run's timestamp and the
pretty-printing of the balance value are passed in as `date` and `render`. -/
def mainRun (env : Env) (w : BrowserWorld) (g : GitWorld) (prior : Option String)
    (date : String) (render : FetchResult → String) : MainOut :=
  match fetchBalance env w with
  | { result := Except.error e, launches := l, closes := cl, cookiesSet := _ } =>
    { exitCode := 1, launches := l, closes := cl, logContent := none,
      syncOk := false, caught := some e }
  | { result := Except.ok bal, launches := l, closes := cl, cookiesSet := _ } =>
    match saveToGitHub date (render bal) prior g with
    | Except.error e =>
      { exitCode := 1, launches := l, closes := cl, logContent := none,
        syncOk := false, caught := some e }
    | Except.ok (content, sync) =>
      { exitCode := 0, launches := l, closes := cl, logContent := some content,
        syncOk := sync, caught := none }

/-! ### Concrete inputs used by the claim theorems -/

/-- A page holding both a DOM balance match (class `balance-amount`, rendered
text `¥128.50`) and an interceptable network candidate whose re-fetch
succeeds with body `balance-body-123`. -/
def cexPage : PageModel :=
  { elements := [{ className := "balance-amount", tag := "span", innerText := "¥128.50" }],
    bodyText := "账户余额 ¥128.50",
    resources := [{ name := "https://api.minimaxi.com/v1/user/balance", initiatorType := "fetch" }],
    fetchJson := fun u =>
      if u == "https://api.minimaxi.com/v1/user/balance" then Except.ok "balance-body-123"
      else Except.error "network" }

/-- A page whose two matching candidates both throw on re-fetch. -/
def c3Page : PageModel :=
  { elements := [], bodyText := "degraded page text",
    resources := [{ name := "https://api.minimaxi.com/v1/user/balance", initiatorType := "fetch" },
                  { name := "https://api.minimaxi.com/v1/quota", initiatorType := "xhr" }],
    fetchJson := fun _ => Except.error "boom" }

/-- A page with no DOM match and no interceptable candidate. -/
def c5Page : PageModel :=
  { elements := [{ className := "nav", tag := "div", innerText := "Welcome back" }],
    bodyText := "Welcome back", resources := [], fetchJson := fun _ => Except.error "none" }

/-- A page that yields no text at all and no network signal. -/
def emptyPage : PageModel :=
  { elements := [], bodyText := "", resources := [], fetchJson := fun _ => Except.error "none" }

/-- A page yielding nonempty raw text and no network signal. -/
def rawTextPage : PageModel :=
  { elements := [], bodyText := "some page text", resources := [], fetchJson := fun _ => Except.error "none" }

/-- Credential configuration with a parseable file holding `sid=abc`. -/
def env8 : Env := { cookieFile := some (CookieFile.parseable (some "sid=abc")), envCookie := none }

/-- A fully successful browser session loading `c5Page`. -/
def w8 : BrowserWorld := { launchOk := true, navOk := true, selectorOk := true, page := c5Page }

/-- Publishing world where the local write succeeds but `git push` fails. -/
def g8 : GitWorld := { writeOk := true, addOk := true, commitOk := true, pushOk := false }

/-! ### Helper lemmas -/

/-- The candidate loop yields nothing when every filtered candidate's re-fetch
throws. -/
theorem runCandidates_eq_none (calls : List ApiCall) (f : String → Except String String)
    (h : ∀ c ∈ calls, isBalanceCall c.name = true → ∃ e, f c.name = Except.error e) :
    runCandidates calls f = none := by
  induction calls with
  | nil => rfl
  | cons c rest ih =>
    cases hb : isBalanceCall c.name with
    | false =>
      simp only [runCandidates, hb, Bool.false_eq_true, if_false]
      exact ih fun d hd => h d (List.mem_cons_of_mem _ hd)
    | true =>
      obtain ⟨e, he⟩ := h c (List.mem_cons_self _ _) hb
      simp only [runCandidates, hb, if_true, he]
      exact ih fun d hd => h d (List.mem_cons_of_mem _ hd)

/-- Splitting a list on a separator never yields the empty group list. -/
theorem splitOnCh_ne_nil (sep : Char) (l : List Char) : splitOnCh sep l ≠ [] := by
  cases l with
  | nil => simp [splitOnCh]
  | cons c cs =>
    unfold splitOnCh
    split
    · simp
    · split <;> simp

/-- Joining the split groups with the separator restores the original list
(model of `parts.join('=')` inverting `s.split('=')`). -/
theorem joinWith_splitOnCh (sep : Char) (l : List Char) :
    joinWith sep (splitOnCh sep l) = l := by
  induction l with
  | nil => rfl
  | cons c cs ih =>
    rcases hs : splitOnCh sep cs with _ | ⟨g, gs⟩
    · exact absurd hs (splitOnCh_ne_nil sep cs)
    · by_cases hceq : c = sep
      · subst hceq
        have hj : joinWith c ([] :: g :: gs) = c :: joinWith c (g :: gs) := by
          cases gs <;> rfl
        calc joinWith c (splitOnCh c (c :: cs))
            = joinWith c ([] :: g :: gs) := by simp [splitOnCh, hs]
          _ = c :: joinWith c (g :: gs) := hj
          _ = c :: cs := by rw [← hs, ih]
      · have hj : joinWith sep ((c :: g) :: gs) = c :: joinWith sep (g :: gs) := by
          cases gs <;> rfl
        calc joinWith sep (splitOnCh sep (c :: cs))
            = joinWith sep ((c :: g) :: gs) := by simp [splitOnCh, hs, hceq]
          _ = c :: joinWith sep (g :: gs) := hj
          _ = c :: cs := by rw [← hs, ih]

/-- When the resolved cookie value is falsy (JS `undefined` or the empty
string), `fetchBalance` throws the missing-credential error before any
browser resource is allocated. -/
theorem fetchBalance_falsy_cookie (env : Env) (w : BrowserWorld) (c : Option String)
    (hg : getCookie env = Except.ok c) (hf : jsFalsy c = true) :
    (fetchBalance env w).result = Except.error (JsError.missingCookie missingCookieMsg) ∧
    (fetchBalance env w).launches = 0 := by
  refine ⟨?_, ?_⟩ <;> (unfold fetchBalance; rw [hg]; simp [hf])

/-- Splitting `n ++ sep :: v` where `n` is separator-free yields `n` as the
first group followed by the groups of `v`. -/
theorem splitOnCh_sep_head (sep : Char) (n v : List Char) (h : sep ∉ n) :
    splitOnCh sep (n ++ sep :: v) = n :: splitOnCh sep v := by
  induction n with
  | nil => simp [splitOnCh]
  | cons c cs ih =>
    have hceq : ¬c = sep := by
      simp only [List.mem_cons, not_or] at h
      exact fun he => h.1 he.symm
    have hcs : sep ∉ cs := by
      simp only [List.mem_cons, not_or] at h
      exact h.2
    show splitOnCh sep (c :: (cs ++ sep :: v)) = (c :: cs) :: splitOnCh sep v
    simp [splitOnCh, hceq, ih hcs]

/-! ### Claim theorems -/

/-- Claim C2: for every invocation of `fetchBalance`, the number of browser
closes equals the number of browser launches and never exceeds one — so after
a successful launch the browser is closed exactly once on every exit path
(successful extraction, degraded extraction, or a thrown exception) before
control returns to the caller. -/
theorem browser_closed_exactly_once :
    ∀ (env : Env) (w : BrowserWorld),
      (fetchBalance env w).closes = (fetchBalance env w).launches ∧
      (fetchBalance env w).closes ≤ 1 := by
  intro env w
  unfold fetchBalance
  rcases getCookie env with e | c
  · exact ⟨rfl, Nat.zero_le 1⟩
  · by_cases hf : jsFalsy c = true
    · simp [hf]
    · by_cases hl : w.launchOk = true <;> simp [hf, hl]

/-- Claim C4: when no credential file exists and the environment variable is
unset, the run exits with code 1 after catching the missing-credential error,
no browser is launched, and the log file is never written. -/
theorem missing_credential_aborts_before_browser :
    ∀ (w : BrowserWorld) (g : GitWorld) (prior : Option String) (date : String)
      (render : FetchResult → String),
      (mainRun { cookieFile := none, envCookie := none } w g prior date render).exitCode = 1 ∧
      (mainRun { cookieFile := none, envCookie := none } w g prior date render).launches = 0 ∧
      (mainRun { cookieFile := none, envCookie := none } w g prior date render).logContent = none ∧
      (mainRun { cookieFile := none, envCookie := none } w g prior date render).caught =
        some (JsError.missingCookie missingCookieMsg) := by
  intro w g prior date render
  exact ⟨rfl, rfl, rfl, rfl⟩

/-- Claim C7 counterexample: with the credential file present but unparseable
and the environment variable set to a non-empty value, `getCookie` raises the
JSON parse error instead of falling back to the environment variable — so the
claimed precedence ("otherwise the named environment variable is used") fails
on the code. -/
theorem unparseable_file_does_not_fall_back :
    getCookie { cookieFile := some CookieFile.unparseable, envCookie := some "envvalue" } =
      Except.error JsError.parseError ∧
    getCookie { cookieFile := some CookieFile.unparseable, envCookie := some "envvalue" } ≠
      Except.ok (some "envvalue") := by
  exact ⟨rfl, fun h => nomatch h⟩

/-- Claim C7 (amended): the credential file is used whenever it is present and
parseable — in particular it is preferred over the environment variable — and
the environment variable is used only when the file is absent; a present but
unparseable file raises a parse error rather than falling back to the
environment variable; and for every configuration in which neither source
yields a non-empty value (the file, when present, is parseable but its cookie
field is absent or empty, and the environment variable is unset or empty) the
run fails with the missing-credential error before any browser resource is
allocated. -/
theorem credential_precedence :
    ∀ (c : Option String) (e : Option String) (env : Env) (w : BrowserWorld),
      getCookie { cookieFile := some (CookieFile.parseable c), envCookie := e } = Except.ok c ∧
      getCookie { cookieFile := none, envCookie := e } = Except.ok (some (e.getD "")) ∧
      getCookie { cookieFile := some CookieFile.unparseable, envCookie := e } =
        Except.error JsError.parseError ∧
      ((∀ cv, env.cookieFile = some (CookieFile.parseable cv) → jsFalsy cv = true) →
        env.cookieFile ≠ some CookieFile.unparseable →
        env.envCookie.getD "" = "" →
        (fetchBalance env w).result =
          Except.error (JsError.missingCookie missingCookieMsg) ∧
        (fetchBalance env w).launches = 0) := by
  intro c e env w
  refine ⟨rfl, rfl, rfl, ?_⟩
  intro hfile hnp henv
  rcases hcf : env.cookieFile with _ | cf
  · exact fetchBalance_falsy_cookie env w (some (env.envCookie.getD ""))
      (by simp [getCookie, hcf]) (by simp only [jsFalsy, henv]; rfl)
  · rcases cf with cv | _
    · exact fetchBalance_falsy_cookie env w cv (by simp [getCookie, hcf]) (hfile cv hcf)
    · exact absurd hcf hnp

/-- Claim C7 witness: the amended theorem applied to a configuration where the
file is parseable with an absent cookie field and the environment variable is
set to the empty string — neither source yields a non-empty value, and the
run fails with the missing-credential error without launching a browser. -/
theorem credential_precedence_witness :
    (fetchBalance { cookieFile := some (CookieFile.parseable none), envCookie := some "" }
        { launchOk := true, navOk := true, selectorOk := true, page := emptyPage }).result =
      Except.error (JsError.missingCookie missingCookieMsg) :=
  ((credential_precedence none none
      { cookieFile := some (CookieFile.parseable none), envCookie := some "" }
      { launchOk := true, navOk := true, selectorOk := true, page := emptyPage }).2.2.2
    (fun cv hcv => by
      injection hcv with h1
      injection h1 with h2
      rw [← h2]
      rfl)
    (fun h => nomatch h)
    rfl).1

/-- Claim C9: the recorder writes title + new section + separator + prior
content back to the path, so prepending two sequential observations to an
empty log yields the later-timestamped section first and then the earlier one,
and for every prior log content the prior document survives verbatim as a
suffix (a pure prepend — no prior content is lost). -/
theorem log_prepend_roundtrip :
    ∀ (d1 b1 d2 b2 record : String) (prior : Option String),
      saveContent (mkRecord d2 b2) (some (saveContent (mkRecord d1 b1) none)) =
        "# MiniMax 余额记录\n\n" ++ ("## " ++ d2 ++ "\n" ++ b2 ++ "\n\n") ++ "\n---\n\n" ++
          ("# MiniMax 余额记录\n\n" ++ ("## " ++ d1 ++ "\n" ++ b1 ++ "\n\n") ++ "\n---\n\n" ++ "") ∧
      saveContent record prior =
        ("# MiniMax 余额记录\n\n" ++ record ++ "\n---\n\n") ++ prior.getD "" ∧
      (∃ p, saveContent record prior = p ++ prior.getD "") := by
  intro d1 b1 d2 b2 record prior
  refine ⟨rfl, ?_, ?_⟩
  · simp [saveContent, String.append_assoc]
  · exact ⟨"# MiniMax 余额记录\n\n" ++ record ++ "\n---\n\n", by simp [saveContent, String.append_assoc]⟩

/-- Claim C1 counterexample: on a page with a DOM element of class
`balance-amount` rendering `¥128.50` and a succeeding interceptable network
candidate, the DOM heuristic scan does match (it logs `Found: ¥128.50`), yet
the returned value is the network candidate's response body — strategy 2 is
consulted (its re-fetch list is nonempty) and no structured balance carrying
the DOM text `¥128.50` is returned, contrary to the claim. -/
theorem dom_match_does_not_win :
    domFoundLogs cexPage = ["Found: ¥128.50", "Found: ¥128.50", "Found: ¥128.50"] ∧
    extractAfterNav cexPage = FetchResult.apiResponse "balance-body-123" ∧
    fetchAttempts (apiCallsOf cexPage) cexPage.fetchJson =
      ["https://api.minimaxi.com/v1/user/balance"] ∧
    extractAfterNav cexPage ≠ FetchResult.pagePreview "¥128.50" := by
  refine ⟨by decide, by decide, by decide, fun h => nomatch h⟩

/-- Claim C1 (amended): the DOM heuristic scan only emits console diagnostics
and never produces the returned value; on a page where a DOM match exists and
the first interceptable candidate's authenticated re-fetch succeeds, strategy
2 is consulted and its response body is what `fetchBalance` resolves with. -/
theorem network_candidate_wins :
    ∀ (p : PageModel) (c : ApiCall) (rest : List ApiCall) (body : String),
      domFoundLogs p ≠ [] →
      apiCallsOf p = c :: rest →
      isBalanceCall c.name = true →
      p.fetchJson c.name = Except.ok body →
      extractAfterNav p = FetchResult.apiResponse body ∧
      fetchAttempts (apiCallsOf p) p.fetchJson = [c.name] := by
  intro p c rest body hdom hcalls hbal hf
  constructor
  · simp [extractAfterNav, hcalls, runCandidates, hbal, hf]
  · simp [hcalls, fetchAttempts, hbal, hf]

/-- Claim C1 witness: the amended theorem applied to the concrete page holding
both a DOM balance match and a succeeding network candidate. -/
theorem network_candidate_wins_witness :
    extractAfterNav cexPage = FetchResult.apiResponse "balance-body-123" :=
  (network_candidate_wins cexPage
    { name := "https://api.minimaxi.com/v1/user/balance", initiatorType := "fetch" }
    [] "balance-body-123" (by decide) (by decide) (by decide) rfl).1

/-- Claim C3: when every filtered candidate's authenticated re-fetch throws,
the extraction chain still returns the raw-snapshot fallback; a single failing
candidate is simply skipped in favour of the next; and `fetchBalance` never
surfaces a `FetchCandidateError` to its caller. -/
theorem fetch_candidate_failure_is_local :
    ∀ (p : PageModel),
      (∀ c ∈ apiCallsOf p, isBalanceCall c.name = true →
        ∃ e, p.fetchJson c.name = Except.error e) →
      extractAfterNav p = FetchResult.pagePreview (takeStr 500 p.bodyText) ∧
      (∀ (c : ApiCall) (rest : List ApiCall) (f : String → Except String String) (e : String),
        isBalanceCall c.name = true → f c.name = Except.error e →
        runCandidates (c :: rest) f = runCandidates rest f) ∧
      (∀ (env : Env) (w : BrowserWorld) (msg : String),
        (fetchBalance env w).result ≠ Except.error (JsError.fetchCandidate msg)) := by
  intro p hfail
  refine ⟨?_, ?_, ?_⟩
  · simp [extractAfterNav, runCandidates_eq_none (apiCallsOf p) p.fetchJson hfail]
  · intro c rest f e hbal hf
    simp [runCandidates, hbal, hf]
  · intro env w msg
    unfold fetchBalance
    rcases henv : env.cookieFile with _ | cf
    · simp only [getCookie, henv]
      by_cases hf : jsFalsy (some (env.envCookie.getD "")) = true
      · simp [hf]
      · by_cases hl : w.launchOk = true <;> by_cases hn : w.navOk = true <;>
          by_cases hs : w.selectorOk = true <;> simp [hf, hl, hn, hs]
    · rcases cf with c | _
      · simp only [getCookie, henv]
        by_cases hf : jsFalsy c = true
        · simp [hf]
        · by_cases hl : w.launchOk = true <;> by_cases hn : w.navOk = true <;>
            by_cases hs : w.selectorOk = true <;> simp [hf, hl, hn, hs]
      · simp [getCookie, henv]

/-- Claim C3 witness: the theorem applied to the concrete page whose two
matching candidates both throw on re-fetch. -/
theorem fetch_candidate_failure_is_local_witness :
    extractAfterNav c3Page = FetchResult.pagePreview (takeStr 500 c3Page.bodyText) :=
  (fetch_candidate_failure_is_local c3Page (fun _ _ _ => ⟨"boom", rfl⟩)).1

/-- Claim C5: on a page with no structured DOM match and no succeeding
interceptable candidate, the extraction chain returns the page-preview result
whose text is the 500-character prefix of the page's visible text: its length
is at most 500 and it is a prefix of the visible text. -/
theorem raw_snapshot_is_bounded :
    ∀ (p : PageModel),
      domFoundLogs p = [] →
      runCandidates (apiCallsOf p) p.fetchJson = none →
      extractAfterNav p = FetchResult.pagePreview (takeStr 500 p.bodyText) ∧
      (takeStr 500 p.bodyText).length ≤ 500 ∧
      (takeStr 500 p.bodyText).data <+: p.bodyText.data := by
  intro p hdom hrc
  refine ⟨?_, ?_, ?_⟩
  · simp [extractAfterNav, hrc]
  · show (p.bodyText.data.take 500).length ≤ 500
    rw [List.length_take]
    exact Nat.min_le_left _ _
  · exact List.take_prefix 500 p.bodyText.data

/-- Claim C5 witness: the theorem applied to the concrete page with no DOM
match and no interceptable candidate. -/
theorem raw_snapshot_is_bounded_witness :
    extractAfterNav c5Page = FetchResult.pagePreview (takeStr 500 c5Page.bodyText) :=
  (raw_snapshot_is_bounded c5Page (by decide) rfl).1

/-- Claim C6 counterexample: on a page that yields no text at all (and no DOM
or network signal), the code returns the same page-preview variant used for
nonempty raw snapshots — tagged `page_loaded`, with an empty preview — not a
distinct `Empty` variant: its status tag coincides with that of a nonempty
raw snapshot. -/
theorem no_text_is_not_a_distinct_variant :
    extractAfterNav emptyPage = FetchResult.pagePreview "" ∧
    statusTag (extractAfterNav emptyPage) = some "page_loaded" ∧
    statusTag (extractAfterNav emptyPage) = statusTag (extractAfterNav rawTextPage) ∧
    isPagePreview (extractAfterNav emptyPage) = isPagePreview (extractAfterNav rawTextPage) := by
  refine ⟨by decide, by decide, by decide, by decide⟩

/-- Claim C6 (amended): a page that yields no text (and no succeeding network
candidate) produces the page-preview variant with empty preview text, tagged
`page_loaded` like every raw snapshot; and every extraction result populates
exactly one of the two variants {apiResponse, pagePreview}. -/
theorem empty_page_gives_empty_preview :
    ∀ (p : PageModel),
      runCandidates (apiCallsOf p) p.fetchJson = none →
      p.bodyText = "" →
      extractAfterNav p = FetchResult.pagePreview "" ∧
      statusTag (extractAfterNav p) = some "page_loaded" ∧
      (∀ r : FetchResult, (isApiResponse r && isPagePreview r) = false ∧
        (isApiResponse r || isPagePreview r) = true) := by
  intro p hrc hempty
  have h1 : extractAfterNav p = FetchResult.pagePreview "" := by
    simp [extractAfterNav, hrc, hempty, takeStr]
  refine ⟨h1, by rw [h1]; rfl, ?_⟩
  intro r
  cases r <;> exact ⟨rfl, rfl⟩

/-- Claim C6 witness: the amended theorem applied to the concrete page with no
text, no DOM elements and no resources. -/
theorem empty_page_gives_empty_preview_witness :
    extractAfterNav emptyPage = FetchResult.pagePreview "" :=
  (empty_page_gives_empty_preview emptyPage rfl rfl).1

/-- Claim C8: when the balance fetch succeeds, the local log write succeeds
and any of the three publish steps (stage, commit, push) fails, the run still
exits with code 0, the log file contains the newly written section, and the
sync failure is reported (not thrown). -/
theorem sync_failure_is_nonfatal :
    ∀ (env : Env) (w : BrowserWorld) (g : GitWorld) (prior : Option String)
      (date : String) (render : FetchResult → String) (bal : FetchResult),
      (fetchBalance env w).result = Except.ok bal →
      g.writeOk = true →
      (g.addOk && g.commitOk && g.pushOk) = false →
      (mainRun env w g prior date render).exitCode = 0 ∧
      (mainRun env w g prior date render).logContent =
        some (saveContent (mkRecord date (render bal)) prior) ∧
      (mainRun env w g prior date render).syncOk = false := by
  intro env w g prior date render bal hres hw hsync
  unfold mainRun
  rcases hfb : fetchBalance env w with ⟨res, l, cl, cs⟩
  rw [hfb] at hres
  change res = Except.ok bal at hres
  subst hres
  simp [saveToGitHub, hw, hsync]

/-- Claim C8 witness: the theorem applied to a successful run whose `git push`
step fails. -/
theorem sync_failure_is_nonfatal_witness :
    (mainRun env8 w8 g8 none "2026-02-03 04:05:06 UTC" (fun _ => "rendered")).exitCode = 0 :=
  (sync_failure_is_nonfatal env8 w8 g8 none "2026-02-03 04:05:06 UTC" (fun _ => "rendered")
    (FetchResult.pagePreview (takeStr 500 c5Page.bodyText)) rfl rfl rfl).1

/-- Claim C10: every browser cookie entry produced by the injection step is
scoped to the fixed domain `.minimaxi.com`, and a pair is split only on its
first `=` with the remainder rejoined — a cookie value that itself contains
`=` characters is preserved intact. -/
theorem cookie_split_preserves_value :
    ∀ (cookie : String) (entry : BrowserCookie) (n v : List Char),
      (entry ∈ parseCookies cookie → entry.domain = ".minimaxi.com") ∧
      ('=' ∉ n → trimL (n ++ '=' :: v) = n ++ '=' :: v →
        parseCookiePair (n ++ '=' :: v) =
          { name := n, value := v, domain := ".minimaxi.com" }) := by
  intro cookie entry n v
  constructor
  · intro hmem
    rcases List.mem_map.mp hmem with ⟨x, _, hx⟩
    rw [← hx]
    rfl
  · intro hne htrim
    unfold parseCookiePair
    rw [htrim, splitOnCh_sep_head '=' n v hne]
    simp [joinWith_splitOnCh]

/-- Claim C10 witness: the theorem applied to the raw cookie
`sid=abc; uid=4=2`: the first entry is domain-scoped and the second pair keeps
the `=` inside its value. -/
theorem cookie_split_preserves_value_witness :
    ({ name := "sid".data, value := "abc".data, domain := ".minimaxi.com" } :
        BrowserCookie).domain = ".minimaxi.com" ∧
    parseCookiePair ("uid".data ++ '=' :: "4=2".data) =
      { name := "uid".data, value := "4=2".data, domain := ".minimaxi.com" } := by
  constructor
  · exact (cookie_split_preserves_value "sid=abc; uid=4=2"
      ⟨"sid".data, "abc".data, ".minimaxi.com"⟩ "uid".data "4=2".data).1 (by decide)
  · exact (cookie_split_preserves_value "sid=abc; uid=4=2"
      ⟨"sid".data, "abc".data, ".minimaxi.com"⟩ "uid".data "4=2".data).2 (by decide) (by decide)

end MinimaxBalance
